import Mathlib

/-!
Shallow embedding of the push-notification delivery core
(`push_notifications/apns.py` and `push_notifications/admin.py`).

Python's dynamically typed values, truthiness and `==` are modelled
explicitly; stateful parts (the device registry, the network) are modelled
by explicit state passing and an event trace.  Transport behaviour (what
the vendor client returns or raises for a given recipient) is a parameter
of the embedding, collected in `Env` / `AdminEnv`.
-/

namespace PushNotifications

/-- A Python value as it flows through the send functions: `None`, a bool,
an int, a string, or a dict of string keys to string values (the shape of
the per-recipient outcome mapping returned by batch sends). -/
inductive PyVal where
  | pyNone
  | pyBool (b : Bool)
  | pyInt (n : Int)
  | pyStr (s : String)
  | pyDict (entries : List (String × String))
  deriving Repr, DecidableEq

/-- Python `v == True`: true for the bool `True` and for any number equal
to `1` (in Python, `bool` is a subclass of `int` and `1 == True`). -/
def pyEqTrue : PyVal → Bool
  | .pyBool b => b
  | .pyInt n => n == 1
  | _ => false

/-- Python truthiness of a value. -/
def pyTruthy : PyVal → Bool
  | .pyNone => false
  | .pyBool b => b
  | .pyInt n => n != 0
  | .pyStr s => !s.isEmpty
  | .pyDict l => !l.isEmpty

/-- Python truthiness of an optional string setting or argument:
`None` and the empty string are falsy. -/
def truthyStr? : Option String → Bool
  | some s => !s.isEmpty
  | none => false

/-- The `PUSH_NOTIFICATIONS_SETTINGS` dictionary entries read by the
APNS module (`SETTINGS.get(...)` yields `None` when a key is absent,
modelled by `Option`). -/
structure Settings where
  USE_APNS_KEY : Bool
  TEAM_ID : Option String
  BUNDLE_ID : Option String
  APNS_KEY_ID : Option String
  APNS_KEY_FILEPATH : Option String
  APNS_CERTIFICATE : Option String
  APNS_USE_SANDBOX : Bool
  APNS_USE_ALTERNATIVE_PORT : Bool
  APNS_TOPIC : Option String
  deriving Repr, DecidableEq

/-- The `apns2.errors.APNsException` subclasses the certificate-path
client can raise; `unregistered` is `apns2.errors.Unregistered`. -/
inductive APNs2ExcClass where
  | unregistered
  | badDeviceToken
  | payloadTooLarge
  | internalServerError
  | otherCls (name : String)
  deriving Repr, DecidableEq

/-- Modelled from the spec: `reason_for_exception_class` is imported from
`push_notifications.apns_errors`, a module not present under `src/`.
Per the spec's Error Translator, it maps each gateway exception class to a
normalized reason string, with "Unregistered" for the
permanently-invalid-token class and vendor-specific strings otherwise. -/
def reason_for_exception_class : APNs2ExcClass → String
  | .unregistered => "Unregistered"
  | .badDeviceToken => "BadDeviceToken"
  | .payloadTooLarge => "PayloadTooLarge"
  | .internalServerError => "InternalServerError"
  | .otherCls name => name

/-- The Python exceptions that can escape the embedded functions. -/
inductive PyExc where
  | improperlyConfigured (msg : String)
  | apnsUnsupportedPriority (msg : String)
  | apnsServerError (status : String)
  | typeError (msg : String)
  | apns2Exception (cls : APNs2ExcClass)
  | connectionError
  | objectDoesNotExist
  | multipleObjectsReturned
  deriving Repr, DecidableEq

/-- The value popped from `kwargs` under the key `"priority"`:
absent (`None`), an int, or a string. -/
inductive Priority where
  | noneP
  | intP (n : Int)
  | strP (s : String)
  deriving Repr, DecidableEq

/-- Python truthiness of the priority value (`if priority:`). -/
def Priority.truthy : Priority → Bool
  | .noneP => false
  | .intP n => n != 0
  | .strP s => !s.isEmpty

/-- Python `str(priority)`. -/
def Priority.toPyStr : Priority → String
  | .noneP => "None"
  | .intP n => toString n
  | .strP s => s

/-- The `apns2.client.NotificationPriority` enum: `Immediate = "10"`,
`Delayed = "5"`. -/
inductive NotificationPriority where
  | immediate
  | delayed
  deriving Repr, DecidableEq

/-- `NotificationPriority(s)`: enum lookup by value, `none` when the
constructor would raise `ValueError`. -/
def notificationPriority? : String → Option NotificationPriority
  | "10" => some .immediate
  | "5" => some .delayed
  | _ => none

/-- Python 2 `msgHead % priority` with a `%d` conversion: ints format,
any non-number operand raises `TypeError`. -/
def percentDFormat (msgHead : String) : Priority → Except PyExc String
  | .intP n => .ok (msgHead ++ toString n)
  | .strP _ => .error (.typeError "%d format: a number is required, not str")
  | .noneP => .error (.typeError "%d format: a number is required, not NoneType")

/-- The `badge` argument: `None`, an int, or a callable of the
registration token. -/
inductive Badge where
  | noneB
  | intB (n : Int)
  | fnB (f : String → Int)

/-- Python `callable(badge)`. -/
def Badge.isCallable : Badge → Bool
  | .fnB _ => true
  | _ => false

/-- The keyword arguments consumed by `_apns_prepare` (everything left in
`kwargs` after `certfile`, `expiration` and `priority` are popped). -/
structure MsgKwargs where
  badge : Badge
  sound : Option String
  category : Option String
  content_available : Bool
  action_loc_key : Option String
  loc_key : Option String
  loc_args : List String
  extra : List (String × String)
  mutable_content : Bool
  thread_id : Option String
  url_args : Option (List String)

/-- The `body` field of an `apns2.payload.PayloadAlert`: the plain alert
string when truthy, else the empty dict (`alert if alert else ` empty). -/
inductive AlertBody where
  | strBody (s : String)
  | emptyDict
  deriving Repr, DecidableEq

/-- The alert slot of the built payload: either the alert as given
(a plain string or `None`), or an `apns2.payload.PayloadAlert`
localized-alert structure. -/
inductive APNSAlert where
  | plain (alert : Option String)
  | localized (body : AlertBody) (body_localized_key : Option String)
      (body_localized_args : List String) (action_localized_key : Option String)
  deriving Repr, DecidableEq

/-- An `apns2.payload.Payload` as constructed by `_apns_prepare`. -/
structure Payload where
  alert : APNSAlert
  badge : Badge
  sound : Option String
  content_available : Bool
  mutable_content : Bool
  category : Option String
  url_args : Option (List String)
  custom : List (String × String)
  thread_id : Option String

/-- Whether any localization field is truthy
(`action_loc_key or loc_key or loc_args`). -/
def hasLocFields (k : MsgKwargs) : Bool :=
  truthyStr? k.action_loc_key || truthyStr? k.loc_key || !k.loc_args.isEmpty

/-- `_apns_prepare(token, alert, **kwargs)`.  Mirrors the source exactly:
the localized-alert branch builds a `PayloadAlert` and leaves `badge`
untouched; only the plain-alert branch evaluates a callable badge with
the token. -/
def _apns_prepare (token : String) (alert : Option String) (k : MsgKwargs) : Payload :=
  if hasLocFields k then
    { alert := .localized
        (match alert with
          | some s => if s.isEmpty then .emptyDict else .strBody s
          | none => .emptyDict)
        k.loc_key k.loc_args k.action_loc_key
      badge := k.badge
      sound := k.sound
      content_available := k.content_available
      mutable_content := k.mutable_content
      category := k.category
      url_args := k.url_args
      custom := k.extra
      thread_id := k.thread_id }
  else
    { alert := .plain alert
      badge := match k.badge with
        | .fnB f => .intB (f token)
        | b => b
      sound := k.sound
      content_available := k.content_available
      mutable_content := k.mutable_content
      category := k.category
      url_args := k.url_args
      custom := k.extra
      thread_id := k.thread_id }

/-- A row of the external Device Registry (`models.APNSDevice`). -/
structure APNSDevice where
  registration_id : String
  active : Bool
  deriving Repr, DecidableEq

/-- The Device Registry state: the stored device rows. -/
abbrev Registry := List APNSDevice

/-- `APNSDevice.objects.get(registration_id=rid)` followed by
`device.active = False; device.save()`: Django `get` succeeds only when
exactly one row matches (else `DoesNotExist` / `MultipleObjectsReturned`),
and `save` writes the deactivated row back. -/
def objectsGetAndDeactivate (reg : Registry) (rid : String) : Except PyExc Registry :=
  match reg.filter (fun d => d.registration_id == rid) with
  | [_] => .ok (reg.map (fun d =>
      if d.registration_id == rid then { d with active := false } else d))
  | [] => .error .objectDoesNotExist
  | _ => .error .multipleObjectsReturned

/-- `APNSDevice.objects.filter(registration_id__in=tokens).update(active=False)`. -/
def filterUpdateInactive (reg : Registry) (tokens : List String) : Registry :=
  reg.map (fun d =>
    if tokens.contains d.registration_id then { d with active := false } else d)

/-- Network / client activity performed by a send call, in order. -/
inductive Event where
  | apns2Connect (certfile : Option String)
  | sendNotification (rid : String) (payload : Payload) (topic : Option String)
      (expiration : Int) (priority : Option NotificationPriority)
  | sendNotificationBatch (notifications : List (String × Payload))
      (topic : Option String) (expiration : Int)
      (priority : Option NotificationPriority)
  | gobikoClientConstructed
  | gobikoSend (rid : String)
  | gobikoBulkSend (rids : List String)

/-- The behaviour of the certificate-path `apns2` client: whether
`connect()` succeeds, and what `send_notification` /
`send_notification_batch` produce per recipient (`sendOne rid = some cls`
means the call raises that `APNsException` subclass; `sendBatch` returns
the per-recipient outcome-string mapping). -/
structure Transport where
  connectOk : Bool
  sendOne : String → Option APNs2ExcClass
  sendBatch : List String → List (String × String)

/-- The whole external environment of a send call: settings, the
certificate-path transport, the token-path `gobiko` client behaviour
(`send_message` / `send_bulk_message` results), and `int(time.time())`. -/
structure Env where
  settings : Settings
  tr : Transport
  authSend : String → Option String → Except PyExc PyVal
  authBulkSend : List String → Option String → Except PyExc PyVal
  now : Int

/-- `certfile or SETTINGS.get("APNS_CERTIFICATE")`: the certificate the
socket is created with. -/
def resolveCert (env : Env) (certfile : Option String) : Option String :=
  if truthyStr? certfile then certfile else env.settings.APNS_CERTIFICATE

/-- `_apns_create_socket(certfile)`: resolve the certificate, construct
the client and `connect()`. The connection attempt is recorded as an
event whether or not it succeeds. -/
def _apns_create_socket (env : Env) (certfile : Option String) :
    Except PyExc Unit × List Event :=
  if env.tr.connectOk then (.ok (), [.apns2Connect (resolveCert env certfile)])
  else (.error .connectionError, [.apns2Connect (resolveCert env certfile)])

/-- The `registration_id` argument of `_apns_send`: a single token, or a
list of tokens (the `batch=True` call). -/
inductive RegArg where
  | single (rid : String)
  | many (rids : List String)

/-- The keyword arguments popped by `_apns_send` before the remaining
`kwargs` are forwarded to `_apns_prepare`. -/
structure SendOpts where
  certfile : Option String
  expiration : Option Int
  priority : Priority
  kwargs : MsgKwargs

/-- The expiration placed in `notification_kwargs`: the supplied value if
truthy, else `int(time.time()) + 2592000` (one month from now). -/
def notificationExpiration (now : Int) (expiration : Option Int) : Int :=
  match expiration with
  | some e => if e != 0 then e else now + 2592000
  | none => now + 2592000

/-- The priority handling of `_apns_send`: a falsy priority sets nothing;
a truthy one is parsed with `NotificationPriority(str(priority))`; on
`ValueError` the code raises
`APNSUnsupportedPriority("Unsupported priority %d" % (priority))`, where
the `%d` formatting itself raises `TypeError` for a non-numeric
priority. -/
def notificationPriorityResult (p : Priority) :
    Except PyExc (Option NotificationPriority) :=
  if p.truthy then
    match notificationPriority? p.toPyStr with
    | some q => .ok (some q)
    | none =>
      match percentDFormat "Unsupported priority " p with
      | .ok msg => .error (.apnsUnsupportedPriority msg)
      | .error te => .error te
  else .ok none

/-- `_apns_send(registration_id, alert, batch, **kwargs)`.  Creates the
socket first, then computes `notification_kwargs`, then performs the
batch or single send.  Returns the batch outcome mapping, or `none`
(Python `None`) for a single send. -/
def _apns_send (env : Env) (registration_id : RegArg) (alert : Option String)
    (opts : SendOpts) : Except PyExc (Option (List (String × String))) × List Event :=
  match _apns_create_socket env opts.certfile with
  | (.error e, evs) => (.error e, evs)
  | (.ok _, evs) =>
    let expiration : Int := notificationExpiration env.now opts.expiration
    match notificationPriorityResult opts.priority with
    | .error e => (.error e, evs)
    | .ok prio =>
      match registration_id with
      | .many rids =>
        let data := rids.map (fun rid => (rid, _apns_prepare rid alert opts.kwargs))
        let results := env.tr.sendBatch rids
        (.ok (some results),
          evs ++ [.sendNotificationBatch data env.settings.APNS_TOPIC expiration prio])
      | .single rid =>
        let data := _apns_prepare rid alert opts.kwargs
        match env.tr.sendOne rid with
        | none =>
          (.ok none,
            evs ++ [.sendNotification rid data env.settings.APNS_TOPIC expiration prio])
        | some exc =>
          (.error (.apns2Exception exc),
            evs ++ [.sendNotification rid data env.settings.APNS_TOPIC expiration prio])

/-- `_check_auth_key_settings()`: each of the four token-auth settings
must be truthy, checked in order; a missing one raises
`ImproperlyConfigured`. -/
def _check_auth_key_settings (s : Settings) : Except PyExc Unit :=
  if !truthyStr? s.TEAM_ID then
    .error (.improperlyConfigured "You need to set PUSH_NOTIFICATION_SETTINGS[\"TEAM_ID\"]")
  else if !truthyStr? s.BUNDLE_ID then
    .error (.improperlyConfigured "You need to set PUSH_NOTIFICATION_SETTINGS[\"BUNDLE_ID\"]")
  else if !truthyStr? s.APNS_KEY_ID then
    .error (.improperlyConfigured "You need to set PUSH_NOTIFICATION_SETTINGS[\"APNS_KEY_ID\"]")
  else if !truthyStr? s.APNS_KEY_FILEPATH then
    .error (.improperlyConfigured "You need to set PUSH_NOTIFICATION_SETTINGS[\"APNS_KEY_FILEPATH\"]")
  else .ok ()

/-- The observable result of a top-level send call: its return value or
raised exception, the registry state afterwards, and the event trace. -/
structure CallResult where
  result : Except PyExc PyVal
  registry : Registry
  events : List Event

/-- `_auth_key_apns_send(registration_id, alert, **kwargs)`: constructs a
`gobiko` `APNsClient`, sets `kwargs["alert"] = alert`, calls
`client.send_message`, and normalizes a `ret == True` result to the
string `"True"`, passing any other value through unchanged. -/
def _auth_key_apns_send (env : Env) (reg : Registry) (registration_id : String)
    (alert : Option String) : CallResult :=
  match env.authSend registration_id alert with
  | .ok ret =>
    { result := .ok (if pyEqTrue ret then .pyStr "True" else ret)
      registry := reg
      events := [.gobikoClientConstructed, .gobikoSend registration_id] }
  | .error e =>
    { result := .error e
      registry := reg
      events := [.gobikoClientConstructed, .gobikoSend registration_id] }

/-- `_auth_key_apns_bulk_send(registration_ids, alert, **kwargs)`:
constructs the client and returns `client.send_bulk_message` verbatim. -/
def _auth_key_apns_bulk_send (env : Env) (reg : Registry)
    (registration_ids : List String) (alert : Option String) : CallResult :=
  match env.authBulkSend registration_ids alert with
  | .ok ret =>
    { result := .ok ret
      registry := reg
      events := [.gobikoClientConstructed, .gobikoBulkSend registration_ids] }
  | .error e =>
    { result := .error e
      registry := reg
      events := [.gobikoClientConstructed, .gobikoBulkSend registration_ids] }

/-- `apns_send_message(registration_id, alert, **kwargs)`.  Token path:
check the auth-key settings, then delegate.  Certificate path: call
`_apns_send` (its value is discarded — a successful send returns `None`);
an `APNsException` leads to deactivating the recipient's device when the
exception is `Unregistered`, then an `APNSServerError` carrying the
normalized reason is raised.  Non-`APNsException` errors propagate. -/
def apns_send_message (env : Env) (reg : Registry) (registration_id : String)
    (alert : Option String) (opts : SendOpts) : CallResult :=
  if env.settings.USE_APNS_KEY then
    match _check_auth_key_settings env.settings with
    | .error e => { result := .error e, registry := reg, events := [] }
    | .ok _ => _auth_key_apns_send env reg registration_id alert
  else
    match _apns_send env (.single registration_id) alert opts with
    | (.ok _, evs) => { result := .ok .pyNone, registry := reg, events := evs }
    | (.error (.apns2Exception cls), evs) =>
      if cls = .unregistered then
        match objectsGetAndDeactivate reg registration_id with
        | .ok reg2 =>
          { result := .error (.apnsServerError (reason_for_exception_class cls))
            registry := reg2
            events := evs }
        | .error ge => { result := .error ge, registry := reg, events := evs }
      else
        { result := .error (.apnsServerError (reason_for_exception_class cls))
          registry := reg
          events := evs }
    | (.error e, evs) => { result := .error e, registry := reg, events := evs }

/-- `apns_send_bulk_message(registration_ids, alert, **kwargs)`.  Token
path: check the auth-key settings, then delegate.  Certificate path: run
the batch send, deactivate every token whose outcome string equals
`"Unregistered"` with one `filter(...).update(active=False)`, and return
the full outcome mapping. -/
def apns_send_bulk_message (env : Env) (reg : Registry)
    (registration_ids : List String) (alert : Option String)
    (opts : SendOpts) : CallResult :=
  if env.settings.USE_APNS_KEY then
    match _check_auth_key_settings env.settings with
    | .error e => { result := .error e, registry := reg, events := [] }
    | .ok _ => _auth_key_apns_bulk_send env reg registration_ids alert
  else
    match _apns_send env (.many registration_ids) alert opts with
    | (.ok (some results), evs) =>
      let inactive_tokens :=
        (results.filter (fun p => p.2 == "Unregistered")).map (fun p => p.1)
      { result := .ok (.pyDict results)
        registry := filterUpdateInactive reg inactive_tokens
        events := evs }
    | (.ok none, evs) => { result := .ok .pyNone, registry := reg, events := evs }
    | (.error e, evs) => { result := .error e, registry := reg, events := evs }

/-! ### Admin test-send action (`push_notifications/admin.py`) -/

/-- The exceptions a test-send call can raise, as seen by the admin
action's `except` clauses: `GCMError`, `APNSServerError`, `gobiko`'s
`APNsException`, or anything else (uncaught, propagates). -/
inductive AdminExc where
  | gcmError (msg : String)
  | apnsServerErrorAdm (status : String)
  | apnsExceptionAdm (clsName : String)
  | otherExc
  deriving Repr, DecidableEq

/-- What each `except` clause appends to `errors`: `str(e)` for
`GCMError`, `e.status` for `APNSServerError`, `type(e).__name__` for
`APNsException`; `none` means the exception is not caught. -/
def adminCatch : AdminExc → Option String
  | .gcmError msg => some msg
  | .apnsServerErrorAdm status => some status
  | .apnsExceptionAdm clsName => some clsName
  | .otherExc => none

/-- The send calls issued by the admin action (devices named by id). -/
inductive AdminEvent where
  | bulkSendCall (queryset : List String)
  | singleSendCall (device : String)
  deriving Repr, DecidableEq

/-- A `message_user` invocation: the error report (with the collected
error strings) or the sent report (with whether some errors also
occurred, and the collected return values). -/
inductive AdminMsg where
  | errorMsg (errors : List String)
  | sentMsg (someFailed : Bool) (ret : List PyVal)
  deriving Repr, DecidableEq

/-- The behaviour of `device.send_message` (per device id) and
`queryset.send_message` (per queryset) as the admin action observes it:
a returned value or a raised exception. -/
structure AdminEnv where
  singleSend : String → Except AdminExc PyVal
  bulkSend : List String → Except AdminExc PyVal

/-- The `for device in queryset:` loop of `DeviceAdmin.send_messages`,
threading `ret` and `errors`.  A bulk iteration sends to the whole
queryset and `break`s; an uncaught exception propagates out of the
loop. -/
def send_messages_loop (env : AdminEnv) (queryset : List String) (bulk : Bool) :
    List String → List PyVal → List String →
    Except AdminExc (List PyVal × List String) × List AdminEvent
  | [], ret, errors => (.ok (ret, errors), [])
  | device :: rest, ret, errors =>
    let callRes := if bulk then env.bulkSend queryset else env.singleSend device
    let ev := if bulk then AdminEvent.bulkSendCall queryset
              else AdminEvent.singleSendCall device
    match callRes with
    | .ok r =>
      let ret2 := if pyTruthy r then ret ++ [r] else ret
      if bulk then (.ok (ret2, errors), [ev])
      else
        let rec2 := send_messages_loop env queryset bulk rest ret2 errors
        (rec2.1, ev :: rec2.2)
    | .error e =>
      match adminCatch e with
      | some msg =>
        let errors2 := errors ++ [msg]
        if bulk then (.ok (ret, errors2), [ev])
        else
          let rec2 := send_messages_loop env queryset bulk rest ret errors2
          (rec2.1, ev :: rec2.2)
      | none => (.error e, [ev])

/-- The observable outcome of `DeviceAdmin.send_messages`: whether it
returned or raised, the `message_user` calls made, and the send calls
issued. -/
structure AdminRun where
  outcome : Except AdminExc Unit
  messages : List AdminMsg
  events : List AdminEvent

/-- `DeviceAdmin.send_messages(request, queryset, bulk)`: run the loop,
then report errors (if any) and sent results (if any) to the user. -/
def send_messages (env : AdminEnv) (queryset : List String) (bulk : Bool) : AdminRun :=
  match send_messages_loop env queryset bulk queryset [] [] with
  | (.error e, evs) => { outcome := .error e, messages := [], events := evs }
  | (.ok (ret, errors), evs) =>
    let errMsgs := if !errors.isEmpty then [AdminMsg.errorMsg errors] else []
    let sentMsgs := if !ret.isEmpty then [AdminMsg.sentMsg (!errors.isEmpty) ret] else []
    { outcome := .ok ()
      messages := errMsgs ++ sentMsgs
      events := evs }

/-! ### Verification-side definitions -/

/-- True when at least one of the four token-auth settings is missing
(falsy), i.e. when `_check_auth_key_settings` raises. -/
def missingAuthField (s : Settings) : Bool :=
  !truthyStr? s.TEAM_ID || !truthyStr? s.BUNDLE_ID ||
  !truthyStr? s.APNS_KEY_ID || !truthyStr? s.APNS_KEY_FILEPATH

/-- Whether a result is a raised `ImproperlyConfigured`. -/
def isImproperlyConfigured {α : Type} : Except PyExc α → Bool
  | .error (.improperlyConfigured _) => true
  | _ => false

/-- Whether a Python value is a string (a receipt/string result). -/
def isStringVal : PyVal → Bool
  | .pyStr _ => true
  | _ => false

/-- The expirations carried by the send events of a trace, in order. -/
def eventExpirations : List Event → List Int
  | [] => []
  | .sendNotification _ _ _ e _ :: t => e :: eventExpirations t
  | .sendNotificationBatch _ _ e _ :: t => e :: eventExpirations t
  | _ :: t => eventExpirations t

/-- The exception escaping `_apns_send` for a truthy priority that does
not parse into the enum: `APNSUnsupportedPriority` when the `%d`
formatting succeeds (numeric priority), else the formatting's own
`TypeError`. -/
def unparseablePriorityExc (p : Priority) : PyExc :=
  match percentDFormat "Unsupported priority " p with
  | .ok msg => .apnsUnsupportedPriority msg
  | .error te => te

/-! ### Concrete fixtures -/

/-- A per-recipient badge function: the length of the token. -/
def badgeLen : String → Int := fun t => (t.length : Int)

/-- Keyword arguments with a callable badge and no localization fields. -/
def kwargsPlain : MsgKwargs :=
  { badge := .fnB badgeLen, sound := none, category := none
    content_available := false, action_loc_key := none, loc_key := none
    loc_args := [], extra := [], mutable_content := false
    thread_id := none, url_args := none }

/-- The same keyword arguments with a body-localization key and args. -/
def kwargsLoc : MsgKwargs :=
  { kwargsPlain with loc_key := some "GAME_MSG", loc_args := ["arg1"] }

/-- Certificate-path settings with all token fields also present. -/
def settingsCert : Settings :=
  { USE_APNS_KEY := false, TEAM_ID := some "team"
    BUNDLE_ID := some "com.example.app", APNS_KEY_ID := some "keyid"
    APNS_KEY_FILEPATH := some "key.p8", APNS_CERTIFICATE := some "cert.pem"
    APNS_USE_SANDBOX := false, APNS_USE_ALTERNATIVE_PORT := false
    APNS_TOPIC := some "com.example.app" }

/-- Token-auth settings with all four token fields present. -/
def settingsToken : Settings := { settingsCert with USE_APNS_KEY := true }

/-- Token-auth settings with the key-file path missing. -/
def settingsTokenMissing : Settings :=
  { settingsToken with APNS_KEY_FILEPATH := none }

/-- A transport where `connect()` succeeds, sending to `"tokB"` raises
`Unregistered`, any other single send succeeds, and batch sends report
`A` delivered, `B` unregistered and `C` failed transiently. -/
def trFix : Transport :=
  { connectOk := true
    sendOne := fun rid => if rid == "tokB" then some .unregistered else none
    sendBatch := fun _ =>
      [("A", "Success"), ("B", "Unregistered"), ("C", "other-error")] }

/-- A certificate-path environment over `trFix`. -/
def envCert : Env :=
  { settings := settingsCert, tr := trFix
    authSend := fun _ _ => .ok (.pyBool true)
    authBulkSend := fun _ _ => .ok (.pyDict [("A", "Success")])
    now := 1700000000 }

/-- The same environment in token-auth mode. -/
def envToken : Env := { envCert with settings := settingsToken }

/-- Token-auth mode with the key-file path missing. -/
def envTokenMissing : Env := { envCert with settings := settingsTokenMissing }

/-- Token-auth mode whose client returns the integer `1`. -/
def envTokenInt1 : Env :=
  { envToken with authSend := fun _ _ => .ok (.pyInt 1) }

/-- Token-auth mode whose client returns an outcome mapping. -/
def envTokenDict : Env :=
  { envToken with authSend := fun _ _ => .ok (.pyDict [("A", "ok")]) }

/-- Token-auth mode whose client raises. -/
def envTokenErr : Env :=
  { envToken with authSend := fun _ _ => .error .connectionError }

/-- A registry holding only the active device `tokB`. -/
def regTokB : Registry := [{ registration_id := "tokB", active := true }]

/-- Three registered, active devices `A`, `B`, `C`. -/
def regABC : Registry :=
  [{ registration_id := "A", active := true }
   , { registration_id := "B", active := true }
   , { registration_id := "C", active := true }]

/-- No extra keyword options: no certfile, expiration or priority. -/
def optsNone : SendOpts :=
  { certfile := none, expiration := none, priority := .noneP
    kwargs := kwargsPlain }

/-- Options supplying a non-zero expiration. -/
def optsExp1234 : SendOpts := { optsNone with expiration := some 1234 }

/-- Options supplying an unparseable string priority. -/
def optsBadPrio : SendOpts :=
  { optsNone with priority := .strP "urgent-but-unknown" }

/-- An admin environment whose sends all return the string "ok". -/
def adminEnvFix : AdminEnv :=
  { singleSend := fun _ => .ok (.pyStr "ok")
    bulkSend := fun _ => .ok (.pyStr "ok") }

/-! ### Helper lemmas -/

theorem notificationPriorityResult_falsy (p : Priority) (hp : p.truthy = false) :
    notificationPriorityResult p = .ok none := by
  simp [notificationPriorityResult, hp]

theorem notificationPriorityResult_unparseable (p : Priority)
    (htr : p.truthy = true) (hbad : notificationPriority? p.toPyStr = none) :
    notificationPriorityResult p = .error (unparseablePriorityExc p) := by
  unfold notificationPriorityResult unparseablePriorityExc
  rw [htr, hbad]
  cases h : percentDFormat "Unsupported priority " p <;> simp [h]

theorem _apns_send_many_eq (env : Env) (rids : List String) (alert : Option String)
    (opts : SendOpts) (q? : Option NotificationPriority)
    (hconn : env.tr.connectOk = true)
    (hq : notificationPriorityResult opts.priority = .ok q?) :
    _apns_send env (.many rids) alert opts =
      (.ok (some (env.tr.sendBatch rids)),
       [.apns2Connect (resolveCert env opts.certfile),
        .sendNotificationBatch
          (rids.map fun rid => (rid, _apns_prepare rid alert opts.kwargs))
          env.settings.APNS_TOPIC (notificationExpiration env.now opts.expiration) q?]) := by
  simp [_apns_send, _apns_create_socket, hconn, hq]

theorem _apns_send_single_ok_eq (env : Env) (rid : String) (alert : Option String)
    (opts : SendOpts) (q? : Option NotificationPriority)
    (hconn : env.tr.connectOk = true)
    (hq : notificationPriorityResult opts.priority = .ok q?)
    (hsend : env.tr.sendOne rid = none) :
    _apns_send env (.single rid) alert opts =
      (.ok none,
       [.apns2Connect (resolveCert env opts.certfile),
        .sendNotification rid (_apns_prepare rid alert opts.kwargs)
          env.settings.APNS_TOPIC (notificationExpiration env.now opts.expiration) q?]) := by
  simp [_apns_send, _apns_create_socket, hconn, hq, hsend]

theorem _apns_send_single_err_eq (env : Env) (rid : String) (alert : Option String)
    (opts : SendOpts) (q? : Option NotificationPriority) (e : APNs2ExcClass)
    (hconn : env.tr.connectOk = true)
    (hq : notificationPriorityResult opts.priority = .ok q?)
    (hsend : env.tr.sendOne rid = some e) :
    _apns_send env (.single rid) alert opts =
      (.error (.apns2Exception e),
       [.apns2Connect (resolveCert env opts.certfile),
        .sendNotification rid (_apns_prepare rid alert opts.kwargs)
          env.settings.APNS_TOPIC (notificationExpiration env.now opts.expiration) q?]) := by
  simp [_apns_send, _apns_create_socket, hconn, hq, hsend]

theorem _apns_send_prio_err_eq (env : Env) (arg : RegArg) (alert : Option String)
    (opts : SendOpts) (ex : PyExc)
    (hconn : env.tr.connectOk = true)
    (herr : notificationPriorityResult opts.priority = .error ex) :
    _apns_send env arg alert opts =
      (.error ex, [.apns2Connect (resolveCert env opts.certfile)]) := by
  simp [_apns_send, _apns_create_socket, hconn, herr]

theorem contains_unregistered_iff (m : List (String × String)) (x : String) :
    (((m.filter (fun p => p.2 == "Unregistered")).map (fun p => p.1)).contains x = true)
      ↔ (x, "Unregistered") ∈ m := by
  simp

theorem filterUpdateInactive_unregistered (reg : Registry) (m : List (String × String)) :
    filterUpdateInactive reg
        ((m.filter (fun p => p.2 == "Unregistered")).map (fun p => p.1))
      = reg.map (fun d =>
          if (d.registration_id, "Unregistered") ∈ m
          then { d with active := false } else d) := by
  unfold filterUpdateInactive
  have hfun : (fun d : APNSDevice =>
      if ((m.filter (fun p => p.2 == "Unregistered")).map (fun p => p.1)).contains
          d.registration_id
      then { d with active := false } else d)
      = (fun d : APNSDevice =>
          if (d.registration_id, "Unregistered") ∈ m
          then { d with active := false } else d) := by
    funext d
    by_cases hd : (d.registration_id, "Unregistered") ∈ m
    · rw [if_pos hd, if_pos ((contains_unregistered_iff m d.registration_id).mpr hd)]
    · rw [if_neg hd, if_neg]
      intro hc
      exact hd ((contains_unregistered_iff m d.registration_id).mp hc)
  rw [hfun]

theorem _check_auth_key_settings_ok (s : Settings)
    (h : missingAuthField s = false) :
    _check_auth_key_settings s = .ok () := by
  simp only [missingAuthField, Bool.or_eq_false_iff, Bool.not_eq_false'] at h
  simp [_check_auth_key_settings, h.1.1.1, h.1.1.2, h.1.2, h.2]

theorem _check_auth_key_settings_err (s : Settings)
    (h : missingAuthField s = true) :
    isImproperlyConfigured (_check_auth_key_settings s) = true := by
  cases ha : truthyStr? s.TEAM_ID <;>
    cases hb : truthyStr? s.BUNDLE_ID <;>
      cases hc : truthyStr? s.APNS_KEY_ID <;>
        cases hd : truthyStr? s.APNS_KEY_FILEPATH <;>
          simp_all [_check_auth_key_settings, isImproperlyConfigured, missingAuthField]

theorem isImproperlyConfigured_iff {α : Type} (r : Except PyExc α) :
    isImproperlyConfigured r = true ↔ ∃ msg, r = .error (.improperlyConfigured msg) := by
  cases r with
  | ok a => simp [isImproperlyConfigured]
  | error e => cases e <;> simp [isImproperlyConfigured]

theorem apns_send_message_prio_err (env : Env) (reg : Registry) (rid : String)
    (alert : Option String) (opts : SendOpts) (ex : PyExc)
    (hkey : env.settings.USE_APNS_KEY = false)
    (hconn : env.tr.connectOk = true)
    (herr : notificationPriorityResult opts.priority = .error ex)
    (hnotapns2 : ∀ cls, ex ≠ .apns2Exception cls) :
    (apns_send_message env reg rid alert opts).result = .error ex ∧
    (apns_send_message env reg rid alert opts).events
      = [.apns2Connect (resolveCert env opts.certfile)] ∧
    (apns_send_message env reg rid alert opts).registry = reg := by
  have h1 := _apns_send_prio_err_eq env (.single rid) alert opts ex hconn herr
  cases ex <;> first
    | exact absurd rfl (hnotapns2 _)
    | simp [apns_send_message, hkey, h1]

theorem apns_send_bulk_message_prio_err (env : Env) (reg : Registry)
    (rids : List String) (alert : Option String) (opts : SendOpts) (ex : PyExc)
    (hkey : env.settings.USE_APNS_KEY = false)
    (hconn : env.tr.connectOk = true)
    (herr : notificationPriorityResult opts.priority = .error ex) :
    (apns_send_bulk_message env reg rids alert opts).result = .error ex ∧
    (apns_send_bulk_message env reg rids alert opts).events
      = [.apns2Connect (resolveCert env opts.certfile)] ∧
    (apns_send_bulk_message env reg rids alert opts).registry = reg := by
  have h2 := _apns_send_prio_err_eq env (.many rids) alert opts ex hconn herr
  simp [apns_send_bulk_message, hkey, h2]

/-! ### Claims -/

/-- C1: for every certificate-path bulk send whose transport returns a
per-recipient outcome mapping, exactly the recipients whose outcome
string equals "Unregistered" are deactivated in the Device Registry, the
full outcome mapping is returned to the caller unmodified, and no
exception is raised for per-recipient failures. -/
theorem c1_bulk_unregistered_deactivation (env : Env) (reg : Registry)
    (rids : List String) (alert : Option String) (opts : SendOpts)
    (q? : Option NotificationPriority)
    (hkey : env.settings.USE_APNS_KEY = false)
    (hconn : env.tr.connectOk = true)
    (hq : notificationPriorityResult opts.priority = .ok q?) :
    (apns_send_bulk_message env reg rids alert opts).result
        = .ok (.pyDict (env.tr.sendBatch rids)) ∧
    (apns_send_bulk_message env reg rids alert opts).registry
        = reg.map (fun d =>
            if (d.registration_id, "Unregistered") ∈ env.tr.sendBatch rids
            then { d with active := false } else d) := by
  have hs := _apns_send_many_eq env rids alert opts q? hconn hq
  simp [apns_send_bulk_message, hkey, hs, filterUpdateInactive_unregistered]

/-- C1 witness: over recipients `[A, B, C]` with outcomes
`A: Success, B: Unregistered, C: other-error`, exactly `B` is deactivated
and the full mapping is returned. -/
theorem c1_bulk_unregistered_deactivation_witness :
    (apns_send_bulk_message envCert regABC ["A", "B", "C"] (some "hi") optsNone).result
      = .ok (.pyDict [("A", "Success"), ("B", "Unregistered"), ("C", "other-error")]) ∧
    (apns_send_bulk_message envCert regABC ["A", "B", "C"] (some "hi") optsNone).registry
      = [{ registration_id := "A", active := true }
         , { registration_id := "B", active := false }
         , { registration_id := "C", active := true }] := by
  have h := c1_bulk_unregistered_deactivation envCert regABC ["A", "B", "C"]
      (some "hi") optsNone none rfl rfl rfl
  refine ⟨h.1, ?_⟩
  rw [h.2]
  rfl

/-- C2: for every certificate-path single send in which the transport
raises a gateway exception, the device is deactivated exactly when the
exception is `Unregistered`, and an `APNSServerError` carrying the
normalized reason for the exception class is raised either way. -/
theorem c2_single_unregistered_deactivates (env : Env) (reg : Registry)
    (rid : String) (alert : Option String) (opts : SendOpts)
    (q? : Option NotificationPriority) (e : APNs2ExcClass)
    (hkey : env.settings.USE_APNS_KEY = false)
    (hconn : env.tr.connectOk = true)
    (hq : notificationPriorityResult opts.priority = .ok q?)
    (hsend : env.tr.sendOne rid = some e)
    (hone : e = .unregistered →
      (reg.filter (fun d => d.registration_id == rid)).length = 1) :
    (apns_send_message env reg rid alert opts).result
        = .error (.apnsServerError (reason_for_exception_class e)) ∧
    (apns_send_message env reg rid alert opts).registry
        = (if e = .unregistered
           then reg.map (fun d =>
                  if d.registration_id == rid then { d with active := false } else d)
           else reg) := by
  have hs := _apns_send_single_err_eq env rid alert opts q? e hconn hq hsend
  by_cases he : e = .unregistered
  · subst he
    obtain ⟨d, hd⟩ := List.length_eq_one.mp (hone rfl)
    simp [apns_send_message, hkey, hs, objectsGetAndDeactivate, hd]
  · simp [apns_send_message, hkey, hs, he]

/-- C2 witness: a single send to `tokB` raising `Unregistered`
deactivates the device and raises `APNSServerError("Unregistered")`. -/
theorem c2_single_unregistered_deactivates_witness :
    (apns_send_message envCert regTokB "tokB" (some "hi") optsNone).result
      = .error (.apnsServerError "Unregistered") ∧
    (apns_send_message envCert regTokB "tokB" (some "hi") optsNone).registry
      = [{ registration_id := "tokB", active := false }] := by
  have h := c2_single_unregistered_deactivates envCert regTokB "tokB" (some "hi")
      optsNone none APNs2ExcClass.unregistered rfl rfl rfl rfl (fun _ => rfl)
  refine ⟨h.1, ?_⟩
  rw [h.2]
  rfl

/-- C3 counterexample: a certificate-path send with the unparseable
priority "urgent-but-unknown" performs a network connect call (the
socket is created before the priority check), so "zero network calls"
fails; and the raised error is the `%d`-formatting `TypeError`, not
`APNSUnsupportedPriority`. -/
theorem c3_priority_counterexample :
    (apns_send_message envCert regABC "tokA" (some "hi") optsBadPrio).events
      = [Event.apns2Connect (some "cert.pem")] ∧
    (apns_send_message envCert regABC "tokA" (some "hi") optsBadPrio).result
      = .error (.typeError "%d format: a number is required, not str") := by
  constructor <;> rfl

/-- C3 (amended): for every certificate-path send with a truthy priority
that does not parse into the gateway's priority enum, the send raises
before any send-notification call but only after one connection has been
established; the error is `APNSUnsupportedPriority` for an integer
priority and the `%d`-formatting `TypeError` for a string priority. -/
theorem c3_priority_amended (env : Env) (reg : Registry) (rid : String)
    (rids : List String) (alert : Option String) (opts : SendOpts)
    (hkey : env.settings.USE_APNS_KEY = false)
    (hconn : env.tr.connectOk = true)
    (htr : opts.priority.truthy = true)
    (hbad : notificationPriority? opts.priority.toPyStr = none) :
    ((apns_send_message env reg rid alert opts).result
        = .error (unparseablePriorityExc opts.priority) ∧
     (apns_send_message env reg rid alert opts).events
        = [Event.apns2Connect (resolveCert env opts.certfile)] ∧
     (apns_send_bulk_message env reg rids alert opts).result
        = .error (unparseablePriorityExc opts.priority) ∧
     (apns_send_bulk_message env reg rids alert opts).events
        = [Event.apns2Connect (resolveCert env opts.certfile)]) ∧
    (∀ n : Int, opts.priority = .intP n →
      unparseablePriorityExc opts.priority
        = .apnsUnsupportedPriority ("Unsupported priority " ++ toString n)) ∧
    (∀ s : String, opts.priority = .strP s →
      unparseablePriorityExc opts.priority
        = .typeError "%d format: a number is required, not str") := by
  have herr := notificationPriorityResult_unparseable opts.priority htr hbad
  have hnot : ∀ cls, unparseablePriorityExc opts.priority ≠ PyExc.apns2Exception cls := by
    intro cls
    cases hpri : opts.priority <;> simp [unparseablePriorityExc, percentDFormat]
  have h1 := apns_send_message_prio_err env reg rid alert opts _ hkey hconn herr hnot
  have h2 := apns_send_bulk_message_prio_err env reg rids alert opts _ hkey hconn herr
  refine ⟨⟨h1.1, h1.2.1, h2.1, h2.2.1⟩, ?_, ?_⟩
  · intro n hp
    rw [hp]
    rfl
  · intro s hp
    rw [hp]
    rfl

/-- C3 witness: the amended behaviour at the concrete unparseable
priority "urgent-but-unknown". -/
theorem c3_priority_amended_witness :
    (apns_send_message envCert regABC "tokA" (some "hi") optsBadPrio).result
      = .error (unparseablePriorityExc (.strP "urgent-but-unknown")) ∧
    (apns_send_bulk_message envCert regABC ["A"] (some "hi") optsBadPrio).events
      = [Event.apns2Connect (some "cert.pem")] := by
  have h := c3_priority_amended envCert regABC "tokA" ["A"] (some "hi") optsBadPrio
      rfl rfl rfl rfl
  exact ⟨h.1.1, h.1.2.2.2⟩

/-- C4 counterexample: for a message whose alert carries localization
fields, a callable badge is NOT evaluated — the unevaluated callable is
placed in the payload instead of the function-evaluated badge integer. -/
theorem c4_callable_badge_counterexample :
    (_apns_prepare "recipientA" (some "hello") kwargsLoc).badge = Badge.fnB badgeLen ∧
    (_apns_prepare "recipientA" (some "hello") kwargsLoc).badge
      ≠ Badge.intB (badgeLen "recipientA") := by
  refine ⟨rfl, fun h => ?_⟩
  exact Badge.noConfusion h

/-- C4 (amended): a callable badge is evaluated with the recipient's
registration identifier exactly when the alert carries no localization
fields (so two distinct recipients get the two distinct function-evaluated
values); when localization fields are present the callable is placed in
the payload unevaluated. -/
theorem c4_callable_badge_amended (alert : Option String) (k : MsgKwargs)
    (f : String → Int) (hb : k.badge = Badge.fnB f) (t : String) :
    (_apns_prepare t alert k).badge =
      (if hasLocFields k then Badge.fnB f else Badge.intB (f t)) := by
  by_cases h : hasLocFields k = true
  · simp [_apns_prepare, h, hb]
  · simp [_apns_prepare, h, hb]

/-- C4 witness: two distinct recipients get distinct evaluated badges on
a plain message, while a localized message keeps the callable. -/
theorem c4_callable_badge_amended_witness :
    (_apns_prepare "ab" (some "hi") kwargsPlain).badge = Badge.intB 2 ∧
    (_apns_prepare "abcd" (some "hi") kwargsPlain).badge = Badge.intB 4 ∧
    (_apns_prepare "ab" (some "hi") kwargsLoc).badge = Badge.fnB badgeLen := by
  refine ⟨?_, ?_, ?_⟩
  · exact c4_callable_badge_amended (some "hi") kwargsPlain badgeLen rfl "ab"
  · exact c4_callable_badge_amended (some "hi") kwargsPlain badgeLen rfl "abcd"
  · exact c4_callable_badge_amended (some "hi") kwargsLoc badgeLen rfl "ab"

/-- C5: whenever the alert carries a (truthy) localization field, the
built payload's alert is the localized-alert structure (body, localized
key, localized args, action key) and never a plain alert — regardless of
whether a plain alert string was also supplied; with no localization
fields the alert is used as given. -/
theorem c5_localized_alert (t : String) (alert : Option String) (k : MsgKwargs) :
    (hasLocFields k = true →
      (_apns_prepare t alert k).alert =
        APNSAlert.localized
          (match alert with
            | some s => if s.isEmpty then .emptyDict else .strBody s
            | none => .emptyDict)
          k.loc_key k.loc_args k.action_loc_key ∧
      ∀ a : Option String, (_apns_prepare t alert k).alert ≠ APNSAlert.plain a) ∧
    (hasLocFields k = false →
      (_apns_prepare t alert k).alert = APNSAlert.plain alert) := by
  constructor
  · intro h
    constructor
    · simp [_apns_prepare, h]
    · intro a hcontra
      simp [_apns_prepare, h] at hcontra
  · intro h
    simp [_apns_prepare, h]

/-- C5 witness: a message with body-localization key and args plus a
plain alert string builds a localized alert, not the plain alert. -/
theorem c5_localized_alert_witness :
    (_apns_prepare "t1" (some "plain alert") kwargsLoc).alert
      = APNSAlert.localized (.strBody "plain alert") (some "GAME_MSG") ["arg1"] none ∧
    (_apns_prepare "t1" (some "plain alert") kwargsLoc).alert
      ≠ APNSAlert.plain (some "plain alert") := by
  have h := (c5_localized_alert "t1" (some "plain alert") kwargsLoc).1 rfl
  exact ⟨h.1, h.2 (some "plain alert")⟩

/-- C6: in token-auth mode with any of the four token settings missing,
both the single and the bulk send raise `ImproperlyConfigured` with no
client constructed, no network attempt, and no registry change. -/
theorem c6_token_auth_config_error (env : Env) (reg : Registry) (rid : String)
    (rids : List String) (alert : Option String) (opts : SendOpts)
    (hkey : env.settings.USE_APNS_KEY = true)
    (hmiss : missingAuthField env.settings = true) :
    isImproperlyConfigured (apns_send_message env reg rid alert opts).result = true ∧
    (apns_send_message env reg rid alert opts).events = [] ∧
    (apns_send_message env reg rid alert opts).registry = reg ∧
    isImproperlyConfigured (apns_send_bulk_message env reg rids alert opts).result = true ∧
    (apns_send_bulk_message env reg rids alert opts).events = [] ∧
    (apns_send_bulk_message env reg rids alert opts).registry = reg := by
  have hc := _check_auth_key_settings_err env.settings hmiss
  obtain ⟨msg, hmsg⟩ := (isImproperlyConfigured_iff _).mp hc
  simp [apns_send_message, apns_send_bulk_message, hkey, hmsg, isImproperlyConfigured]

/-- C6 witness: token-auth mode with the key-file path missing. -/
theorem c6_token_auth_config_error_witness :
    isImproperlyConfigured
        (apns_send_message envTokenMissing regABC "tokA" (some "hi") optsNone).result
      = true ∧
    (apns_send_message envTokenMissing regABC "tokA" (some "hi") optsNone).events = [] ∧
    isImproperlyConfigured
        (apns_send_bulk_message envTokenMissing regABC ["A"] (some "hi") optsNone).result
      = true ∧
    (apns_send_bulk_message envTokenMissing regABC ["A"] (some "hi") optsNone).events = [] := by
  have h := c6_token_auth_config_error envTokenMissing regABC "tokA" ["A"]
      (some "hi") optsNone rfl rfl
  exact ⟨h.1, h.2.1, h.2.2.2.1, h.2.2.2.2.1⟩

/-- C7: on the certificate path, an unset (falsy) expiration makes the
notification's expiration `now + 2592000`, and a supplied non-zero
expiration is used as given — for single and batch sends alike. -/
theorem c7_expiration_default (env : Env) (arg : RegArg) (alert : Option String)
    (opts : SendOpts) (q? : Option NotificationPriority)
    (hconn : env.tr.connectOk = true)
    (hq : notificationPriorityResult opts.priority = .ok q?) :
    ((opts.expiration = none ∨ opts.expiration = some 0) →
      eventExpirations (_apns_send env arg alert opts).2 = [env.now + 2592000]) ∧
    (∀ e : Int, opts.expiration = some e → e ≠ 0 →
      eventExpirations (_apns_send env arg alert opts).2 = [e]) := by
  cases arg with
  | many rids =>
    rw [_apns_send_many_eq env rids alert opts q? hconn hq]
    constructor
    · rintro (h | h) <;> simp [eventExpirations, notificationExpiration, h]
    · intro e he hne
      simp [eventExpirations, notificationExpiration, he, hne]
  | single rid =>
    rcases hs : env.tr.sendOne rid with _ | exc
    · rw [_apns_send_single_ok_eq env rid alert opts q? hconn hq hs]
      constructor
      · rintro (h | h) <;> simp [eventExpirations, notificationExpiration, h]
      · intro e he hne
        simp [eventExpirations, notificationExpiration, he, hne]
    · rw [_apns_send_single_err_eq env rid alert opts q? exc hconn hq hs]
      constructor
      · rintro (h | h) <;> simp [eventExpirations, notificationExpiration, h]
      · intro e he hne
        simp [eventExpirations, notificationExpiration, he, hne]

/-- C7 witness: with no expiration the send carries
`1700000000 + 2592000`; with expiration `1234` it carries `1234`. -/
theorem c7_expiration_default_witness :
    eventExpirations (_apns_send envCert (.single "tokA") (some "hi") optsNone).2
      = [1702592000] ∧
    eventExpirations (_apns_send envCert (.single "tokA") (some "hi") optsExp1234).2
      = [1234] := by
  have h1 := (c7_expiration_default envCert (.single "tokA") (some "hi") optsNone
      none rfl rfl).1 (Or.inl rfl)
  have h2 := (c7_expiration_default envCert (.single "tokA") (some "hi") optsExp1234
      none rfl rfl).2 1234 rfl (by decide)
  exact ⟨h1, h2⟩

/-- C8 counterexample: the token-path normalization uses Python `==`,
under which `1 == True`; a client returning the integer `1` (which is
not the boolean `True`) is normalized to the string "True" instead of
being passed through unchanged. -/
theorem c8_token_one_counterexample :
    (apns_send_message envTokenInt1 regABC "tokA" (some "hi") optsNone).result
      = .ok (.pyStr "True") ∧
    (PyVal.pyInt 1 ≠ PyVal.pyBool true) ∧
    (PyVal.pyStr "True" ≠ PyVal.pyInt 1) := by
  refine ⟨rfl, by decide, by decide⟩

/-- C8 (amended): on the token-path single send, a client return value
equal to `True` under Python equality (the boolean `True` or a number
equal to 1) is normalized to the literal string "True"; any value not
equal to `True` is returned unchanged. -/
theorem c8_token_send_normalization (env : Env) (reg : Registry) (rid : String)
    (alert : Option String) (opts : SendOpts) (v : PyVal)
    (hkey : env.settings.USE_APNS_KEY = true)
    (hfields : missingAuthField env.settings = false)
    (hauth : env.authSend rid alert = .ok v) :
    (apns_send_message env reg rid alert opts).result
      = .ok (if pyEqTrue v then .pyStr "True" else v) := by
  have hok := _check_auth_key_settings_ok env.settings hfields
  simp [apns_send_message, hkey, hok, _auth_key_apns_send, hauth]

/-- C8 witness: a boolean `True` result becomes "True"; a mapping result
is passed through unchanged. -/
theorem c8_token_send_normalization_witness :
    (apns_send_message envToken regABC "tokA" (some "hi") optsNone).result
      = .ok (.pyStr "True") ∧
    (apns_send_message envTokenDict regABC "tokA" (some "hi") optsNone).result
      = .ok (.pyDict [("A", "ok")]) := by
  have h1 := c8_token_send_normalization envToken regABC "tokA" (some "hi") optsNone
      (.pyBool true) rfl rfl rfl
  have h2 := c8_token_send_normalization envTokenDict regABC "tokA" (some "hi") optsNone
      (.pyDict [("A", "ok")]) rfl rfl rfl
  exact ⟨h1, h2⟩

/-- C9 counterexample: a successful certificate-path single send returns
Python `None` — not a receipt/string. -/
theorem c9_cert_success_none_counterexample :
    (apns_send_message envCert regABC "tokA" (some "hi") optsNone).result
      = .ok PyVal.pyNone ∧
    isStringVal PyVal.pyNone = false := by
  exact ⟨rfl, rfl⟩

/-- C9 (amended): a successful single send returns the normalized
receipt/passthrough value on the token path, but returns `None` (no
receipt) on the certificate path; on failure the outcome is raised as an
error on both paths — an `APNSServerError` carrying the normalized
reason on the certificate path, and the client's own exception on the
token path. -/
theorem c9_single_send_outcome (env : Env) (reg : Registry) (rid : String)
    (alert : Option String) (opts : SendOpts) (q? : Option NotificationPriority)
    (v : PyVal) (e : APNs2ExcClass)
    (hconn : env.tr.connectOk = true)
    (hq : notificationPriorityResult opts.priority = .ok q?)
    (hfields : missingAuthField env.settings = false) :
    (env.tr.sendOne rid = none → env.authSend rid alert = .ok v →
      (apns_send_message env reg rid alert opts).result
        = (if env.settings.USE_APNS_KEY
           then .ok (if pyEqTrue v then .pyStr "True" else v)
           else .ok PyVal.pyNone)) ∧
    (env.settings.USE_APNS_KEY = false → env.tr.sendOne rid = some e →
      (e = .unregistered →
        (reg.filter (fun d => d.registration_id == rid)).length = 1) →
      (apns_send_message env reg rid alert opts).result
        = .error (.apnsServerError (reason_for_exception_class e))) ∧
    (∀ ex : PyExc, env.settings.USE_APNS_KEY = true →
      env.authSend rid alert = .error ex →
      (apns_send_message env reg rid alert opts).result = .error ex) := by
  have hok := _check_auth_key_settings_ok env.settings hfields
  refine ⟨?_, ?_, ?_⟩
  · intro hsend hauth
    have hs := _apns_send_single_ok_eq env rid alert opts q? hconn hq hsend
    by_cases hk : env.settings.USE_APNS_KEY = true
    · simp [apns_send_message, hk, hok, _auth_key_apns_send, hauth]
    · simp [apns_send_message, hk, hs]
  · intro hk hsend hone
    have hs := _apns_send_single_err_eq env rid alert opts q? e hconn hq hsend
    by_cases he : e = .unregistered
    · subst he
      obtain ⟨d, hd⟩ := List.length_eq_one.mp (hone rfl)
      simp [apns_send_message, hk, hs, objectsGetAndDeactivate, hd]
    · simp [apns_send_message, hk, hs, he]
  · intro ex hk herr
    simp [apns_send_message, hk, hok, _auth_key_apns_send, herr]

/-- C9 witness: a successful send returns `None` on the certificate path
and the "True" receipt on the token path; a failing send raises
`APNSServerError("Unregistered")` on the certificate path and the
client's exception on the token path. -/
theorem c9_single_send_outcome_witness :
    (apns_send_message envCert regABC "tokA" (some "hi") optsNone).result
      = .ok PyVal.pyNone ∧
    (apns_send_message envToken regABC "tokA" (some "hi") optsNone).result
      = .ok (.pyStr "True") ∧
    (apns_send_message envCert regTokB "tokB" (some "hi") optsNone).result
      = .error (.apnsServerError "Unregistered") ∧
    (apns_send_message envTokenErr regABC "tokA" (some "hi") optsNone).result
      = .error .connectionError := by
  have h1 := (c9_single_send_outcome envCert regABC "tokA" (some "hi") optsNone
      none (.pyBool true) .unregistered rfl rfl rfl).1 rfl rfl
  have h2 := (c9_single_send_outcome envToken regABC "tokA" (some "hi") optsNone
      none (.pyBool true) .unregistered rfl rfl rfl).1 rfl rfl
  have h3 := (c9_single_send_outcome envCert regTokB "tokB" (some "hi") optsNone
      none (.pyBool true) APNs2ExcClass.unregistered rfl rfl rfl).2.1
      rfl rfl (fun _ => rfl)
  have h4 := (c9_single_send_outcome envTokenErr regABC "tokA" (some "hi") optsNone
      none (.pyBool true) .unregistered rfl rfl rfl).2.2
      PyExc.connectionError rfl rfl
  exact ⟨h1, h2, h3, h4⟩

/-- C10: in the admin test-send action with bulk=True, a non-empty
queryset issues exactly one queryset-level bulk send call and no
per-device single send; an empty queryset issues no send call and
presents no message to the user. -/
theorem c10_admin_bulk_single_call (env : AdminEnv) (qs : List String) :
    (qs ≠ [] →
      (send_messages env qs true).events = [AdminEvent.bulkSendCall qs]) ∧
    (qs = [] →
      (send_messages env qs true).events = [] ∧
      (send_messages env qs true).messages = []) := by
  constructor
  · intro hne
    rcases qs with _ | ⟨d, t⟩
    · exact absurd rfl hne
    · rcases hb : env.bulkSend (d :: t) with e | r
      · rcases hm : adminCatch e with _ | msg
        · simp [send_messages, send_messages_loop, hb, hm]
        · simp [send_messages, send_messages_loop, hb, hm]
      · simp [send_messages, send_messages_loop, hb]
  · intro he
    subst he
    simp [send_messages, send_messages_loop]

/-- C10 witness: a two-device queryset issues one bulk call; the empty
queryset issues nothing and reports nothing. -/
theorem c10_admin_bulk_single_call_witness :
    (send_messages adminEnvFix ["d1", "d2"] true).events
      = [AdminEvent.bulkSendCall ["d1", "d2"]] ∧
    (send_messages adminEnvFix [] true).events = [] ∧
    (send_messages adminEnvFix [] true).messages = [] := by
  have h1 := (c10_admin_bulk_single_call adminEnvFix ["d1", "d2"]).1 (by simp)
  have h2 := (c10_admin_bulk_single_call adminEnvFix []).2 rfl
  exact ⟨h1, h2.1, h2.2⟩

end PushNotifications
